import Mathlib

set_option maxRecDepth 8000

/-
Verification of the spec-driven project audit tool (scripts/audit_project.py).

Shallow embedding conventions:
- Python strings are Lean `String`s; lines are obtained with a structurally
  recursive equivalent of Python `content.split('\n')`.
- The module-level regular expressions (REQ_ID_CORE, PRD_REQ_PATTERN,
  PRD_TABLE_REQ_PATTERN, PRD_HEADING_PATTERN, PLAN_ITEM_PATTERN, TASK_PATTERN,
  HEADER_PATTERN, TEST_REF_PATTERN, PLAN_TABLE_PATTERN) are embedded as
  executable character-list matchers.  Whitespace and word characters follow
  the ASCII fragment of Python's `\s` / `\b` semantics (the documents in the
  spec are ASCII).
- Python dicts are insertion-ordered association lists (`SDict`); assignment
  replaces the value in place for an existing key and appends for a new key,
  exactly like a CPython dict.
- The Python `ast` syntax tree is embedded as the mutual inductives
  `PExpr` / `PStmt`, restricted to the node shapes `check_test_integrity`
  and `analyze_test_file` distinguish; every other statement/expression kind
  is represented by the catch-all constructors carrying their child nodes
  (`NodeVisitor.generic_visit` only ever looks at children).
- File system interaction (reading PRD.md / PLAN.md, globbing in
  `find_test_files`, `ast.parse`) is I/O: the pipeline takes the documents'
  text and the list of discovered test files, each paired with its parse
  result (`none` models a `SyntaxError` from `ast.parse`).
-/

namespace Audit

/-- Whitespace test for the ASCII fragment of Python `str.strip` and regex `\s`. -/
def isPySpace (c : Char) : Bool :=
  c == ' ' || c == '\t' || c == '\n' || c == '\r' || c == '\x0b' || c == '\x0c'

/-- Alphanumeric test for the regex class `[A-Za-z0-9]` used by REQ_ID_CORE. -/
def isAlnumCh (c : Char) : Bool :=
  ('A' ≤ c && c ≤ 'Z') || ('a' ≤ c && c ≤ 'z') || ('0' ≤ c && c ≤ '9')

/-- Word-character test for the regex `\b` boundary (ASCII fragment). -/
def isWordCh (c : Char) : Bool := isAlnumCh c || c == '_'

/-- Greedy `\s*`: drop leading whitespace. -/
def skipSp (cs : List Char) : List Char := cs.dropWhile isPySpace

/-- Python `str.strip()` (ASCII whitespace model). -/
def pyStrip (s : String) : String :=
  String.mk (((s.data.dropWhile isPySpace).reverse.dropWhile isPySpace).reverse)

/-- Python `str.split(sep)` for a one-character separator, structurally
recursive (Lean's `String.splitOn` is well-founded recursion, which the
kernel cannot evaluate).  Matches Python: `"".split(c) == [""]`, empty
pieces are kept. -/
def splitChAux (sep : Char) : List Char → List Char → List String
  | [], acc => [String.mk acc.reverse]
  | c :: cs, acc =>
    if c = sep then String.mk acc.reverse :: splitChAux sep cs []
    else splitChAux sep cs (c :: acc)

/-- Python `content.split('\n')`. -/
def splitLines (s : String) : List String := splitChAux '\n' s.data []

/-- Character comparison, case-insensitive when `ci` is set (re.IGNORECASE). -/
def chEq (ci : Bool) (a b : Char) : Bool :=
  if ci then a.toLower == b.toLower else a == b

/-- Match a literal pattern at the head of the input; on success return the
consumed input characters (original case) and the rest. -/
def litPre (ci : Bool) : List Char → List Char → Option (List Char × List Char)
  | [], cs => some ([], cs)
  | _ :: _, [] => none
  | p :: ps, c :: cs =>
    if chEq ci p c then (litPre ci ps cs).map (fun r => (c :: r.1, r.2)) else none

/-- Prefix alternation of REQ_ID_CORE, `(?:FR|NFR|INV|R|TD)-`, dash included.
The alternatives have pairwise distinct first letters, so trying them in the
regex's order without backtracking is exact. -/
def reqIdAlts : List (List Char) :=
  [['F', 'R', '-'], ['N', 'F', 'R', '-'], ['I', 'N', 'V', '-'], ['R', '-'], ['T', 'D', '-']]

/-- Greedy `(?:-[A-Za-z0-9]+)*` tail of REQ_ID_CORE: consume further
dash-separated alphanumeric segments. -/
def coreSegs : Nat → List Char → (List Char × List Char)
  | 0, cs => ([], cs)
  | fuel + 1, cs =>
    match cs with
    | '-' :: rest =>
      let seg := rest.takeWhile isAlnumCh
      if seg.isEmpty then ([], cs)
      else
        let r := coreSegs fuel (rest.drop seg.length)
        ('-' :: (seg ++ r.1), r.2)
    | _ => ([], cs)

/-- Match REQ_ID_CORE, `(?:FR|NFR|INV|R|TD)-[A-Za-z0-9]+(?:-[A-Za-z0-9]+)*`,
greedily at the head of the input.  Returns the matched characters and the
rest. -/
def matchReqIdCore (ci : Bool) (cs : List Char) : Option (List Char × List Char) :=
  reqIdAlts.findSome? fun alt =>
    match litPre ci alt cs with
    | none => none
    | some (pre, rest) =>
      let seg := rest.takeWhile isAlnumCh
      if seg.isEmpty then none
      else
        let r := coreSegs rest.length (rest.drop seg.length)
        some (pre ++ seg ++ r.1, r.2)

/-- Backtracking step for the trailing `\b` of REQ_ID_PATTERN: when the greedy
core match is followed by a word character (necessarily an underscore), the
regex engine retries ending the match one segment earlier, which always lands
before a dash and hence on a boundary.  Returns the shortened id and the
characters handed back to the scan, or `none` when only one segment remains. -/
def dropLastSeg (idc : List Char) : Option (List Char × List Char) :=
  let rev := idc.reverse
  let seg := rev.takeWhile (fun c => !(c == '-'))
  match rev.drop seg.length with
  | '-' :: more =>
    if more.any (fun c => c == '-') then some (more.reverse, '-' :: seg.reverse)
    else none
  | _ => none

/-- Scan loop of `REQ_ID_PATTERN.findall`: non-overlapping, left-to-right,
with `\b` boundaries on both sides tracked via the previous character. -/
def findallAux : Nat → Bool → List Char → List String
  | 0, _, _ => []
  | _, _, [] => []
  | fuel + 1, prevW, c :: rest =>
    if prevW then findallAux fuel (isWordCh c) rest
    else
      match matchReqIdCore false (c :: rest) with
      | some (idc, after) =>
        let nextW := match after with | a :: _ => isWordCh a | [] => false
        if nextW then
          match dropLastSeg idc with
          | some (idc', given) => String.mk idc' :: findallAux fuel true (given ++ after)
          | none => findallAux fuel (isWordCh c) rest
        else String.mk idc :: findallAux fuel true after
      | none => findallAux fuel (isWordCh c) rest

/-- Embedding of `REQ_ID_PATTERN.findall(s)`. -/
def findallReqIds (s : String) : List String :=
  findallAux (s.data.length + 1) false s.data

/-- Embedding of `PRD_REQ_PATTERN.match`:
`^\s*[-*]\s*\*\*(CORE)\*\*:\s*(.*)` → `(id, raw group 2)`. -/
def prdReqMatch (s : String) : Option (String × String) :=
  match skipSp s.data with
  | [] => none
  | b :: r1 =>
    if b == '-' || b == '*' then
      match skipSp r1 with
      | '*' :: '*' :: r3 =>
        match matchReqIdCore false r3 with
        | some (idc, r4) =>
          match r4 with
          | '*' :: '*' :: ':' :: r5 => some (String.mk idc, String.mk (skipSp r5))
          | _ => none
        | none => none
      | _ => none
    else none

/-- Embedding of `PRD_TABLE_REQ_PATTERN.match`:
`^\s*\|\s*(CORE)\s*\|\s*(.*?)\s*\|.*`.  The lazy group 2 together with the
caller's `.strip()` amounts to stripping the cell up to the next pipe; the
match requires a further pipe to exist. -/
def prdTableMatch (s : String) : Option (String × String) :=
  match skipSp s.data with
  | '|' :: r1 =>
    match matchReqIdCore false (skipSp r1) with
    | some (idc, r2) =>
      match skipSp r2 with
      | '|' :: r3 =>
        if r3.any (fun c => c == '|') then
          some (String.mk idc, String.mk (r3.takeWhile (fun c => !(c == '|'))))
        else none
      | _ => none
    | none => none
  | _ => none

/-- Embedding of `PRD_HEADING_PATTERN.match`: `^#+\s*(CORE):\s*(.*)`. -/
def prdHeadingMatch (s : String) : Option (String × String) :=
  match s.data with
  | '#' :: r1 =>
    match matchReqIdCore false (skipSp (r1.dropWhile (fun ch => ch == '#'))) with
    | some (idc, r3) =>
      match r3 with
      | ':' :: r4 => some (String.mk idc, String.mk (skipSp r4))
      | _ => none
    | none => none
  | _ => none

/-- Embedding of `HEADER_PATTERN.match`: `^#+\s+(.*)` → raw group 1. -/
def headerMatch (s : String) : Option String :=
  match s.data with
  | [] => none
  | c :: r1 =>
    if c == '#' then
      match r1.dropWhile (fun ch => ch == '#') with
      | [] => none
      | c2 :: r2 => if isPySpace c2 then some (String.mk (r2.dropWhile isPySpace)) else none
    else none

/-- Embedding of `PLAN_ITEM_PATTERN.match` (strict task line):
`^\s*[-*]\s*\[([ xX~])\]\s*\*\*(CORE)\*\*:\s*(.*)` → `(status, id, raw text)`. -/
def planItemMatch (s : String) : Option (Char × String × String) :=
  match skipSp s.data with
  | [] => none
  | b :: r1 =>
    if b == '-' || b == '*' then
      match skipSp r1 with
      | '[' :: st :: ']' :: r3 =>
        if st == ' ' || st == 'x' || st == 'X' || st == '~' then
          match skipSp r3 with
          | '*' :: '*' :: r5 =>
            match matchReqIdCore false r5 with
            | some (idc, r6) =>
              match r6 with
              | '*' :: '*' :: ':' :: r7 => some (st, String.mk idc, String.mk (skipSp r7))
              | _ => none
            | none => none
          | _ => none
        else none
      | _ => none
    else none

/-- Embedding of `TASK_PATTERN.match` (loose task line):
`^\s*[-*]\s*\[([ xX~])\]\s*(.*)` → `(status, raw text)`. -/
def taskMatch (s : String) : Option (Char × String) :=
  match skipSp s.data with
  | [] => none
  | b :: r1 =>
    if b == '-' || b == '*' then
      match skipSp r1 with
      | '[' :: st :: ']' :: r3 =>
        if st == ' ' || st == 'x' || st == 'X' || st == '~' then
          some (st, String.mk (skipSp r3))
        else none
      | _ => none
    else none

/-- Status vocabulary of PLAN_TABLE_PATTERN, in the regex's alternation order,
lowercased (the pattern carries re.IGNORECASE and the caller lowercases the
captured group). -/
def planStatusKws : List String :=
  ["done", "pending", "in progress", "complete", "incomplete", "yes", "no", "-"]

/-- Embedding of `PLAN_TABLE_PATTERN.match` (case-insensitive):
`^\s*\|\s*(CORE)\s*\|\s*(Done|Pending|In Progress|Complete|Incomplete|Yes|No|-)\s*\|`
returning `(id as written, status lowercased)`. -/
def planTableMatch (s : String) : Option (String × String) :=
  match skipSp s.data with
  | [] => none
  | c0 :: r1 =>
    if c0 == '|' then
    match matchReqIdCore true (skipSp r1) with
    | some (idc, r2) =>
      match skipSp r2 with
      | '|' :: r3 =>
        (planStatusKws.findSome? fun kw =>
          match litPre true kw.data (skipSp r3) with
          | some (_, rest) =>
            match skipSp rest with
            | '|' :: _ => some kw
            | _ => none
          | none => none).map fun kw => (String.mk idc, kw)
      | _ => none
    | none => none
    else none

/-- The backquote character (used by TEST_REF_PATTERN). -/
def bqChar : Char := Char.ofNat 96

/-- Try `TEST_REF_PATTERN` at the head of the input: `Tests?:\s*` then a
backquoted nonempty group of non-backquote characters. -/
def testRefAt (cs : List Char) : Option String :=
  match litPre false ['T', 'e', 's', 't'] cs with
  | none => none
  | some (_, r1) =>
    let afterColon : Option (List Char) :=
      match r1 with
      | 's' :: ':' :: r => some r
      | ':' :: r => some r
      | _ => none
    match afterColon with
    | none => none
    | some r3 =>
      match skipSp r3 with
      | [] => none
      | c :: r4 =>
        if c == bqChar then
          let grp := r4.takeWhile (fun ch => !(ch == bqChar))
          if grp.isEmpty then none
          else
            match r4.drop grp.length with
            | c2 :: _ => if c2 == bqChar then some (String.mk grp) else none
            | [] => none
        else none

/-- Leftmost-match scan of `TEST_REF_PATTERN.search`. -/
def testRefSearchAux : Nat → List Char → Option String
  | 0, _ => none
  | _, [] => none
  | fuel + 1, c :: rest =>
    match testRefAt (c :: rest) with
    | some g => some g
    | none => testRefSearchAux fuel rest

/-- Embedding of `TEST_REF_PATTERN.search(s)` returning group 1. -/
def testRefSearch (s : String) : Option String :=
  testRefSearchAux (s.data.length + 1) s.data

/-- The comma-split-and-strip applied to a matched test reference group:
`[t.strip() for t in match.group(1).split(',')]`. -/
def splitRefs (g : String) : List String := (splitChAux ',' g.data []).map pyStrip

/-- A requirement from PRD.md. -/
structure Requirement where
  id : String
  text : String
  line_number : Nat
deriving DecidableEq, Repr

/-- A tracked item from PLAN.md. -/
structure PlanItem where
  id : String
  text : String
  completed : Bool
  line_number : Nat
  test_refs : List String
deriving DecidableEq, Repr

/-- Insertion-ordered string-keyed map modelling a CPython dict. -/
abbrev SDict (α : Type) : Type := List (String × α)

/-- Dict lookup, `d[k]` / `d.get(k)`. -/
def dget {α : Type} : SDict α → String → Option α
  | [], _ => none
  | p :: ps, k => if p.1 = k then some p.2 else dget ps k

/-- Dict membership, `k in d`. -/
def dmem {α : Type} (d : SDict α) (k : String) : Bool := (dget d k).isSome

/-- Dict assignment `d[k] = v`: replace in place when the key exists,
append otherwise — CPython insertion-order semantics. -/
def dinsert {α : Type} : SDict α → String → α → SDict α
  | [], k, v => [(k, v)]
  | p :: ps, k, v => if p.1 = k then (k, v) :: ps else p :: dinsert ps k v

/-- Dict key iteration order, `for k in d`. -/
def dkeys {α : Type} (d : SDict α) : List String := d.map Prod.fst

/-- Classification of a PRD.md line: the three patterns of `parse_prd` in
their priority order (list, table, heading), each yielding
`(id, group-2 stripped)` as the source does. -/
def prdClassify (line : String) : Option (String × String) :=
  match prdReqMatch line with
  | some (rid, g) => some (rid, pyStrip g)
  | none =>
    match prdTableMatch line with
    | some (rid, g) => some (rid, pyStrip g)
    | none =>
      match prdHeadingMatch line with
      | some (rid, g) => some (rid, pyStrip g)
      | none => none

/-- Line loop of `parse_prd`, with 1-indexed line numbers. -/
def parsePrdAux : Nat → List String → SDict Requirement → SDict Requirement
  | _, [], d => d
  | i, l :: rest, d =>
    parsePrdAux (i + 1) rest
      (match prdClassify l with
       | some (rid, t) => dinsert d rid ⟨rid, t, i⟩
       | none => d)

/-- Embedding of `parse_prd` on a pre-split line list. -/
def parsePrdLines (lines : List String) : SDict Requirement := parsePrdAux 1 lines []

/-- Embedding of `parse_prd` on a document string. -/
def parse_prd (content : String) : SDict Requirement :=
  parsePrdLines (splitLines content)

/-- Context window of `parse_plan`'s test-reference scan:
`'\n'.join(lines[max(0, i-1):min(len(lines), i+5)])` for 1-indexed `i`. -/
def planCtx (lines : List String) (i : Nat) : String :=
  String.intercalate "\n" ((lines.drop (i - 1)).take 6)

/-- Test references extracted around plan line `i`. -/
def planRefs (lines : List String) (i : Nat) : List String :=
  match testRefSearch (planCtx lines i) with
  | some g => splitRefs g
  | none => []

/-- The mutation `plan_items[section_req].completed = False`. -/
def setIncomplete (it : PlanItem) : PlanItem :=
  ⟨it.id, it.text, false, it.line_number, it.test_refs⟩

/-- Revoke one section requirement: `if section_req in plan_items:
plan_items[section_req].completed = False`. -/
def revokeOne (d : SDict PlanItem) (k : String) : SDict PlanItem :=
  if dmem d k then d.map (fun p => if p.1 = k then (p.1, setIncomplete p.2) else p) else d

/-- Revoke every id of `current_section_reqs` that is already tracked. -/
def revokeSecs (d : SDict PlanItem) (secs : List String) : SDict PlanItem :=
  secs.foldl revokeOne d

/-- One line of the `parse_plan` loop.  The accumulator carries
`(plan_items, current_section_reqs)`; the full line list is needed for the
test-reference context window. -/
def planStep (lines : List String) (acc : SDict PlanItem × List String) (i : Nat)
    (line : String) : SDict PlanItem × List String :=
  match headerMatch line with
  | some g =>
    if (findallReqIds (pyStrip g)).isEmpty then (acc.1, [])
    else
      ((findallReqIds (pyStrip g)).foldl
        (fun d k => dinsert d k ⟨k, "Section: " ++ pyStrip g, true, i, []⟩) acc.1,
       findallReqIds (pyStrip g))
  | none =>
    match planItemMatch line with
    | some (stc, rid, g) =>
      (dinsert (if stc.toLower == 'x' then acc.1 else revokeSecs acc.1 acc.2) rid
        ⟨rid, pyStrip g, stc.toLower == 'x', i, planRefs lines i⟩, acc.2)
    | none =>
      match taskMatch line with
      | some (stc, g) =>
        ((findallReqIds (pyStrip g)).foldl
          (fun d k => dinsert d k ⟨k, pyStrip g, stc.toLower == 'x', i, planRefs lines i⟩)
          (if stc.toLower == 'x' then acc.1 else revokeSecs acc.1 acc.2), acc.2)
      | none =>
        match planTableMatch line with
        | some (rid, stTxt) =>
          if dmem acc.1 rid then acc
          else
            (dinsert acc.1 rid ⟨rid, "Table entry: " ++ pyStrip line,
              stTxt == "done" || stTxt == "complete" || stTxt == "yes", i, []⟩, acc.2)
        | none => acc

/-- Line loop of `parse_plan`, 1-indexed. -/
def parsePlanAux (lines : List String) :
    Nat → List String → (SDict PlanItem × List String) → SDict PlanItem × List String
  | _, [], acc => acc
  | i, l :: rest, acc => parsePlanAux lines (i + 1) rest (planStep lines acc i l)

/-- Embedding of `parse_plan` on a pre-split line list. -/
def parsePlanLines (lines : List String) : SDict PlanItem :=
  (parsePlanAux lines 1 lines ([], [])).1

/-- Embedding of `parse_plan` on a document string. -/
def parse_plan (content : String) : SDict PlanItem :=
  parsePlanLines (splitLines content)

/-- Python constant values distinguished by the integrity checker. -/
inductive PConst where
  | pnone
  | pbool (b : Bool)
  | pint (n : Int)
  | pstr (s : String)
deriving DecidableEq, Repr

/-- Python `==` on the embedded constants (`True == 1` holds). -/
def pyEq : PConst → PConst → Bool
  | .pnone, .pnone => true
  | .pbool a, .pbool b => a == b
  | .pbool a, .pint n => (if a then (1 : Int) else 0) == n
  | .pint n, .pbool b => n == (if b then (1 : Int) else 0)
  | .pint m, .pint n => m == n
  | .pstr a, .pstr b => a == b
  | _, _ => false

/-- Comparison operators: `check_test_integrity` only distinguishes `ast.Eq`
from everything else. -/
inductive PCmpOp where
  | eqOp
  | otherOp
deriving DecidableEq, Repr

mutual
/-- Embedded `ast` expressions, restricted to the shapes the audit
distinguishes (`Constant`, `Name`, `Attribute`, `Compare`, `Call`). -/
inductive PExpr where
  | constant (c : PConst)
  | nameE (id : String)
  | attr (value : PExpr) (a : String)
  | compare (left : PExpr) (ops : List PCmpOp) (comparators : List PExpr)
  | call (func : PExpr) (args : List PExpr)
/-- Embedded `ast` statements.  `withS` carries the `withitem` context
expressions and the body; `funcDef` covers `FunctionDef` and
`AsyncFunctionDef` (treated identically by the audit); `otherS` is the
catch-all for every other statement kind, carrying its child expressions and
child statements (all `generic_visit` ever inspects). -/
inductive PStmt where
  | passS
  | assertS (test : PExpr)
  | exprS (value : PExpr)
  | withS (items : List PExpr) (body : List PStmt)
  | funcDef (name : String) (lineno : Nat) (decorators : List PExpr) (body : List PStmt)
  | classDef (name : String) (lineno : Nat) (body : List PStmt)
  | otherS (exprChildren : List PExpr) (stmtChildren : List PStmt)
end

/-- The method-name set of `AssertionFinder.visit_Call`. -/
def mockAsserts : List String :=
  ["raises", "warns", "assert_called", "assert_called_once", "assert_called_with",
   "assert_called_once_with", "assert_not_called", "assert_has_calls"]

/-- The check of `AssertionFinder.visit_With` on one `withitem`: context
expression is a `Call` whose func attribute is `raises` or `warns`. -/
def withHit : PExpr → Bool
  | .call (.attr _ a) _ => a == "raises" || a == "warns"
  | _ => false

mutual
/-- Does visiting this expression set `AssertionFinder.found`?
`visit_Call` checks the func-attribute name then recurses via
`generic_visit`; all other expression kinds only recurse. -/
def finderExpr : PExpr → Bool
  | .constant _ => false
  | .nameE _ => false
  | .attr v _ => finderExpr v
  | .compare l _ rs => finderExpr l || finderExprs rs
  | .call f args =>
    (match f with
     | .attr _ a => mockAsserts.contains a
     | _ => false) || finderExpr f || finderExprs args
/-- Finder over a list of expressions. -/
def finderExprs : List PExpr → Bool
  | [] => false
  | e :: es => finderExpr e || finderExprs es
/-- Does visiting this statement set `AssertionFinder.found`?
`visit_Assert` sets it outright; `visit_With` additionally checks its items;
`visit_FunctionDef` / `visit_AsyncFunctionDef` / `visit_ClassDef` never
descend. -/
def finderStmt : PStmt → Bool
  | .passS => false
  | .assertS _ => true
  | .exprS v => finderExpr v
  | .withS items body => withHits items || finderExprs items || finderStmts body
  | .funcDef _ _ _ _ => false
  | .classDef _ _ _ => false
  | .otherS es ss => finderExprs es || finderStmts ss
/-- Finder over a list of statements. -/
def finderStmts : List PStmt → Bool
  | [] => false
  | s :: ss => finderStmt s || finderStmts ss
/-- `visit_With`'s own item loop over a list of context expressions. -/
def withHits : List PExpr → Bool
  | [] => false
  | e :: es => withHit e || withHits es
end

/-- Docstring test: `isinstance(body[0], ast.Expr)` whose value is a string
`ast.Constant`. -/
def isDocstring : PStmt → Bool
  | .exprS (.constant (.pstr _)) => true
  | _ => false

/-- Drop a leading docstring statement from a function body. -/
def stripDocstring (body : List PStmt) : List PStmt :=
  match body with
  | s :: rest => if isDocstring s then rest else body
  | [] => []

/-- Always-pass issues contributed by one top-level statement of the
(docstring-stripped) body. -/
def assertIssues : PStmt → List String
  | .assertS t =>
    match t with
    | .constant c =>
      if c == .pbool true then ["Always-pass pattern: assert True"]
      else if pyEq c (.pint 1) then ["Always-pass pattern: assert 1"]
      else []
    | .compare l ops rs =>
      match l, rs with
      | .constant c1, [.constant c2] =>
        if ops == [PCmpOp.eqOp] && pyEq c1 c2 then
          ["Always-pass pattern: trivial comparison"]
        else []
      | _, _ => []
    | _ => []
  | _ => []

/-- The `non_trivial` loop of `check_test_integrity`: a statement other than
`Pass`/`Expr`, or an `Expr` whose value is not a constant, is non-trivial. -/
def stmtNonTrivial : PStmt → Bool
  | .passS => false
  | .exprS (.constant _) => false
  | .exprS _ => true
  | _ => true

/-- Embedding of `check_test_integrity(func_node, lines)` on the function
body.  (The `lines` parameter of the source is never read.) -/
def check_test_integrity (body : List PStmt) : List String :=
  match stripDocstring body with
  | [PStmt.passS] => ["Placeholder test (only pass statement)"]
  | _ =>
    (stripDocstring body).flatMap assertIssues ++
      (if !finderStmts body && !((stripDocstring body).any stmtNonTrivial) then
        ["No assertions found (placeholder test)"]
       else [])

/-- Information about a test function.  `requirement_ids` holds the raw
constant values appended by the decorator scan (the source appends any
`ast.Constant` value, not only strings). -/
structure TestInfo where
  name : String
  file : String
  line_number : Nat
  requirement_ids : List PConst
  issues : List String
deriving DecidableEq, Repr

/-- Requirement ids collected from `@pytest.mark.requirement(...)`-shaped
decorators: any call decorator whose func attribute is `requirement`,
collecting every constant argument. -/
def decoratorIds (decs : List PExpr) : List PConst :=
  decs.flatMap fun d =>
    match d with
    | .call (.attr _ a) args =>
      if a == "requirement" then
        args.filterMap fun g =>
          match g with
          | .constant c => some c
          | _ => none
      else []
    | _ => []

/-- `process_test_function`: only names with the `test_` prefix yield a
record. -/
def processTest (path : String) : PStmt → List TestInfo
  | .funcDef nm lineno decs body =>
    if "test_".data.isPrefixOf nm.data then
      [⟨nm, path, lineno, decoratorIds decs, check_test_integrity body⟩]
    else []
  | _ => []

/-- Embedding of `analyze_test_file`.  The `Option` input is the outcome of
`ast.parse`: `none` models a `SyntaxError`, in which case the source returns
the (still empty) record list.  Only top-level functions and methods of
top-level classes are visited. -/
def analyze_test_file : Option (List PStmt) → String → List TestInfo
  | none, _ => []
  | some tree, path =>
    tree.flatMap fun node =>
      match node with
      | .funcDef _ _ _ _ => processTest path node
      | .classDef _ _ cbody => cbody.flatMap (processTest path)
      | _ => []

/-- The test-collection loop of `run_audit`:
`for test_file in test_files: result.tests.extend(analyze_test_file(...))`.
Each discovered file is paired with its parse result. -/
def runTests (files : List (String × Option (List PStmt))) : List TestInfo :=
  files.flatMap fun f => analyze_test_file f.2 f.1

/-- Results of the audit. -/
structure AuditResult where
  requirements : SDict Requirement
  plan_items : SDict PlanItem
  tests : List TestInfo
  prd_not_in_plan : List String
  plan_not_in_prd : List String
  no_test_coverage : List String
  suspect_tests : List TestInfo
  completion_issues : List (String × String)
deriving Repr

/-- Python `plan_id in t.requirement_ids` (list membership by `==`; a string
query can only match string constants). -/
def declaresReq (t : TestInfo) (r : String) : Bool :=
  t.requirement_ids.any (fun c => pyEq (.pstr r) c)

/-- Membership of `r` in the `tested_requirements` set of `run_audit`. -/
def testedHas (tests : List TestInfo) (r : String) : Bool :=
  tests.any (fun t => declaresReq t r)

/-- Reconciliation core of `run_audit` (the file reading / parsing above it
is I/O; the parsed inputs are taken as arguments). -/
def run_audit (reqs : SDict Requirement) (plans : SDict PlanItem)
    (tests : List TestInfo) : AuditResult :=
  ⟨reqs, plans, tests,
   (dkeys reqs).filter (fun r => !(dmem plans r)),
   (dkeys plans).filter (fun r => !(dmem reqs r)),
   (dkeys reqs).filter (fun r => !(testedHas tests r)),
   tests.filter (fun t => !t.issues.isEmpty),
   plans.filterMap (fun p =>
     if p.2.completed && !(testedHas tests p.1) && dmem reqs p.1 then
       some (p.1, "Marked complete but no tests found")
     else none)⟩

/-- The exit-relevant issue sum of `main` (deliberately without
`no_test_coverage`). -/
def exitRelevantSum (r : AuditResult) : Nat :=
  r.prd_not_in_plan.length + r.plan_not_in_prd.length +
    r.suspect_tests.length + r.completion_issues.length

/-- The process exit status: `sys.exit(1 if total_issues > 0 else 0)`. -/
def exitStatus (r : AuditResult) : Nat :=
  if exitRelevantSum r > 0 then 1 else 0

/-- The displayed total of `generate_report` (all five categories). -/
def totalIssues (r : AuditResult) : Nat :=
  r.prd_not_in_plan.length + r.plan_not_in_prd.length + r.no_test_coverage.length +
    r.suspect_tests.length + r.completion_issues.length

/-- Python `sorted` on strings (ascending lexicographic). -/
def pySortedInsert (x : String) : List String → List String
  | [] => [x]
  | y :: ys => if x ≤ y then x :: y :: ys else y :: pySortedInsert x ys

/-- Python `sorted` on a string list. -/
def pySorted (l : List String) : List String := l.foldr pySortedInsert []

/-- Rendering of `test.file.relative_to(project_root) if project_root in
test.file.parents else test.file` for normalized path strings. -/
def relPath (rootAbs : String) (file : String) : String :=
  if (rootAbs ++ "/").data.isPrefixOf file.data then
    String.mk (file.data.drop (rootAbs.length + 1))
  else file

/-- Rendering of a requirement-id constant inside the report.  (CPython's
`', '.join` would raise `TypeError` on a non-string constant; the rendering
here keeps the function total — no claim exercises that crash.) -/
def renderConst : PConst → String
  | .pstr s => s
  | .pint n => toString n
  | .pbool b => if b then "True" else "False"
  | .pnone => "None"

/-- Embedding of `generate_report` as its line list (the source builds
`lines` and joins with newlines).  `rootName` and `rootAbs` stand for
`project_root.name` and `project_root.absolute()`. -/
def generate_report_lines (result : AuditResult) (rootName rootAbs : String) :
    List String :=
  ["# Project Audit Report", "",
   "**Project**: " ++ rootName,
   "**Audited**: " ++ rootAbs,
   "", "---", "", "## Summary", "",
   "- **Requirements in PRD**: " ++ toString result.requirements.length,
   "- **Items in PLAN**: " ++ toString result.plan_items.length,
   "- **Test functions found**: " ++ toString result.tests.length,
   ""] ++
  (if totalIssues result == 0 then ["**No issues found.**"]
   else ["**Total issues found: " ++ toString (totalIssues result) ++ "**"]) ++
  ["", "---", ""] ++
  (["## PRD Requirements Not in PLAN", ""] ++
   (if result.prd_not_in_plan.isEmpty then ["*None*"]
    else
      ["These requirements are defined in PRD.md but not tracked in PLAN.md:", ""] ++
      (pySorted result.prd_not_in_plan).map (fun rid =>
        match dget result.requirements rid with
        | some req =>
          "- **" ++ rid ++ "**: " ++ req.text ++ " (PRD.md:" ++
            toString req.line_number ++ ")"
        | none => "- **" ++ rid ++ "**: <KeyError>")) ++
   ["", "---", ""]) ++
  (["## PLAN Items Without PRD Backing", ""] ++
   (if result.plan_not_in_prd.isEmpty then ["*None*"]
    else
      ["These items are in PLAN.md but not defined in PRD.md:", ""] ++
      (pySorted result.plan_not_in_prd).map (fun pid =>
        match dget result.plan_items pid with
        | some item =>
          "- **" ++ pid ++ "**: " ++ item.text ++ " (PLAN.md:" ++
            toString item.line_number ++ ")"
        | none => "- **" ++ pid ++ "**: <KeyError>")) ++
   ["", "---", ""]) ++
  (["## Requirements Without Test Coverage", ""] ++
   (if result.no_test_coverage.isEmpty then ["*All requirements have test coverage*"]
    else
      ["These requirements have no tests with `@pytest.mark.requirement` marker:", ""] ++
      (pySorted result.no_test_coverage).map (fun rid =>
        match dget result.requirements rid with
        | some req => "- **" ++ rid ++ "**: " ++ req.text
        | none => "- **" ++ rid ++ "**: <KeyError>")) ++
   ["", "---", ""]) ++
  (["## Suspect Tests", ""] ++
   (if result.suspect_tests.isEmpty then ["*No suspect tests found*"]
    else
      ["These tests have integrity issues:", ""] ++
      result.suspect_tests.flatMap (fun t =>
        ["### `" ++ t.name ++ "` (" ++ relPath rootAbs t.file ++ ":" ++
           toString t.line_number ++ ")", ""] ++
        (if t.requirement_ids.isEmpty then []
         else
           ["**Requirements**: " ++
             String.intercalate ", " (t.requirement_ids.map renderConst)]) ++
        ["", "**Issues**:"] ++
        t.issues.map (fun iss => "- " ++ iss) ++ [""])) ++
   ["", "---", ""]) ++
  (["## Completion Honesty Issues", ""] ++
   (if result.completion_issues.isEmpty then ["*No completion issues found*"]
    else
      ["These items are marked complete but have issues:", ""] ++
      result.completion_issues.map (fun pr =>
        match dget result.plan_items pr.1 with
        | some item =>
          "- **" ++ pr.1 ++ "**: " ++ pr.2 ++ " (PLAN.md:" ++
            toString item.line_number ++ ")"
        | none => "- **" ++ pr.1 ++ "**: " ++ pr.2)) ++
   ["", "---", ""]) ++
  (["## Test Coverage Matrix", "",
    "| Requirement | In PLAN | Has Tests | Status |",
    "|-------------|---------|-----------|--------|"] ++
   (pySorted (dkeys result.requirements)).map (fun rid =>
     "| " ++ rid ++ " | " ++
       (if dmem result.plan_items rid then "Yes" else "No") ++ " | " ++
       (if testedHas result.tests rid then "Yes" else "No") ++ " | " ++
       (match dget result.plan_items rid with
        | some item => if item.completed then "Complete" else "Pending"
        | none => "Not tracked") ++ " |") ++
   [""])

/-- Embedding of `generate_report`: the line list joined with newlines. -/
def generate_report (result : AuditResult) (rootName rootAbs : String) : String :=
  String.intercalate "\n" (generate_report_lines result rootName rootAbs)

/-- The audit pipeline on in-memory inputs: parse both documents, analyze the
discovered test files in their given order, reconcile. -/
def audit_pipeline (prd plan : String)
    (files : List (String × Option (List PStmt))) : AuditResult :=
  run_audit (parse_prd prd) (parse_plan plan) (runTests files)

/-- The pipeline's rendered report. -/
def audit_report (prd plan : String) (files : List (String × Option (List PStmt)))
    (rootName rootAbs : String) : String :=
  generate_report (audit_pipeline prd plan files) rootName rootAbs

/-- The statement `assert 1 == 1` as a syntax-tree node. -/
def trivialAssert : PStmt :=
  PStmt.assertS (.compare (.constant (.pint 1)) [PCmpOp.eqOp] [.constant (.pint 1)])

/-- Input for the exit-status/summary asymmetry: one requirement, tracked in
the plan but not completed, and no tests — only `no_test_coverage` is
non-empty. -/
def c2input : AuditResult :=
  audit_pipeline "- **FR-1**: thing" "- [ ] **FR-1**: doing" []

/-- A plan document containing a Pending table row and a strict completed
task line for FR-1, followed by a later incomplete loose task that also
references FR-1. -/
def c4doc : String :=
  "| FR-1 | Pending |\n- [x] **FR-1**: do it\n- [ ] extra (FR-1)"

/-- A parsed test file whose single test is a bare-`pass` placeholder. -/
def c7fileA : String × Option (List PStmt) :=
  ("a/test_a.py", some [PStmt.funcDef "test_a" 1 [] [PStmt.passS]])

/-- A second placeholder test file with a different name. -/
def c7fileB : String × Option (List PStmt) :=
  ("b/test_b.py", some [PStmt.funcDef "test_b" 1 [] [PStmt.passS]])

/-- Last definition of a requirement id in a PRD line list: the text and
1-indexed line number of the last line that `prdClassify` resolves to this
id (specification-side description of "the last occurrence"). -/
def lastPrdDef : Nat → List String → String → Option (String × Nat)
  | _, [], _ => none
  | i, l :: rest, rid =>
    match lastPrdDef (i + 1) rest rid with
    | some r => some r
    | none =>
      match prdClassify l with
      | some (k, t) => if k == rid then some (t, i) else none
      | none => none

/-- Number of lines of a PRD document that define a given id. -/
def prdDefCount (lines : List String) (rid : String) : Nat :=
  (lines.filterMap prdClassify).countP (fun p => p.1 == rid)

section Lemmas

/-- Lookup after insertion at the same key. -/
theorem dget_dinsert_self {α : Type} (d : SDict α) (k : String) (v : α) :
    dget (dinsert d k v) k = some v := by
  induction d with
  | nil => simp [dinsert, dget]
  | cons p ps ih =>
    by_cases h : p.1 = k
    · simp [dinsert, dget, h]
    · simp [dinsert, dget, h, ih]

/-- Lookup after insertion at a different key. -/
theorem dget_dinsert_ne {α : Type} (d : SDict α) (k r : String) (v : α) (h : r ≠ k) :
    dget (dinsert d k v) r = dget d r := by
  have hkr : ¬ k = r := fun he => h he.symm
  induction d with
  | nil => simp [dinsert, dget, hkr]
  | cons p ps ih =>
    by_cases hp : p.1 = k
    · simp [dinsert, dget, hp, hkr]
    · simp [dinsert, dget, hp, ih]

/-- Membership after insertion at the same key. -/
theorem dmem_dinsert_self {α : Type} (d : SDict α) (k : String) (v : α) :
    dmem (dinsert d k v) k = true := by
  simp [dmem, dget_dinsert_self]

/-- A fold of plan-item insertions leaves absent keys untouched. -/
theorem dget_foldl_dinsert_notmem (txt : String) (cb : Bool) (i : Nat) (refs : List String)
    (ks : List String) (d : SDict PlanItem) (r : String) (h : r ∉ ks) :
    dget (ks.foldl (fun d k => dinsert d k ⟨k, txt, cb, i, refs⟩) d) r = dget d r := by
  induction ks generalizing d with
  | nil => rfl
  | cons k ks ih =>
    simp only [List.foldl_cons]
    rw [ih _ (fun hm => h (List.mem_cons_of_mem _ hm)),
      dget_dinsert_ne _ _ _ _ (fun he => h (by rw [he]; exact List.mem_cons_self _ _))]

/-- A fold of plan-item insertions resolves a present key to its item. -/
theorem dget_foldl_dinsert_mem (txt : String) (cb : Bool) (i : Nat) (refs : List String)
    (ks : List String) (d : SDict PlanItem) (r : String) (h : r ∈ ks) :
    dget (ks.foldl (fun d k => dinsert d k ⟨k, txt, cb, i, refs⟩) d) r =
      some ⟨r, txt, cb, i, refs⟩ := by
  induction ks generalizing d with
  | nil => cases h
  | cons k ks ih =>
    simp only [List.foldl_cons]
    by_cases hm : r ∈ ks
    · exact ih _ hm
    · have hk : r = k := by
        rcases List.mem_cons.mp h with h1 | h2
        · exact h1
        · exact absurd h2 hm
      subst hk
      rw [dget_foldl_dinsert_notmem _ _ _ _ _ _ _ hm, dget_dinsert_self]

/-- Revocation of a single key at that key. -/
theorem dget_revokeOne_self (d : SDict PlanItem) (k : String) (it : PlanItem)
    (h : dget d k = some it) : dget (revokeOne d k) k = some (setIncomplete it) := by
  have hm : dmem d k = true := by simp [dmem, h]
  unfold revokeOne
  rw [if_pos hm]
  clear hm
  induction d with
  | nil => simp [dget] at h
  | cons p ps ih =>
    by_cases hp : p.1 = k
    · simp only [dget, hp, if_true, Option.some.injEq] at h
      simp [dget, hp, h]
    · simp only [dget, hp, if_false] at h
      simp [dget, hp, ih h]

/-- Revocation of a single key at a different key. -/
theorem dget_revokeOne_ne (d : SDict PlanItem) (k r : String) (h : r ≠ k) :
    dget (revokeOne d k) r = dget d r := by
  unfold revokeOne
  by_cases hm : dmem d k = true
  · rw [if_pos hm]
    clear hm
    induction d with
    | nil => rfl
    | cons p ps ih =>
      by_cases hp : p.1 = k
      · have hkr : ¬ k = r := fun he => h he.symm
        simp [dget, hp, hkr, ih]
      · simp [dget, hp, ih]
  · rw [if_neg hm]

/-- Section revocation at a key present in the dict: incomplete iff the key
belongs to the revoked section ids. -/
theorem dget_revokeSecs (secs : List String) (d : SDict PlanItem) (r : String)
    (it : PlanItem) (h : dget d r = some it) :
    dget (revokeSecs d secs) r = some (if r ∈ secs then setIncomplete it else it) := by
  induction secs generalizing d it with
  | nil => simpa [revokeSecs] using h
  | cons k ks ih =>
    by_cases hk : r = k
    · subst hk
      have h2 := ih _ _ (dget_revokeOne_self _ _ _ h)
      rw [show revokeSecs d (r :: ks) = revokeSecs (revokeOne d r) ks from rfl, h2,
        if_pos (List.mem_cons_self _ _)]
      by_cases hm : r ∈ ks
      · rw [if_pos hm]; rfl
      · rw [if_neg hm]
    · have h1 : dget (revokeOne d k) r = some it := by
        rw [dget_revokeOne_ne _ _ _ hk]; exact h
      have h2 := ih _ _ h1
      rw [show revokeSecs d (k :: ks) = revokeSecs (revokeOne d k) ks from rfl, h2]
      by_cases hm : r ∈ ks
      · rw [if_pos hm, if_pos (List.mem_cons_of_mem _ hm)]
      · rw [if_neg hm, if_neg (by simp [List.mem_cons, hk, hm])]

/-- A line whose first non-blank character is not `#` is no header line. -/
theorem headerMatch_none {l : String} {c : Char} {r : List Char}
    (e : skipSp l.data = c :: r) (hc : c ≠ '#') : headerMatch l = none := by
  unfold headerMatch
  rcases hd : l.data with _ | ⟨c0, r0⟩
  · rw [hd] at e
  · by_cases h0 : c0 = '#'
    · exfalso
      rw [hd, h0] at e
      rw [skipSp, List.dropWhile_cons] at e
      simp only [show isPySpace '#' = false by decide, Bool.false_eq_true, if_false,
        List.cons.injEq] at e
      exact hc e.1.symm
    · simp [h0]

/-- A line whose first non-blank character is a pipe is no strict task line. -/
theorem planItemMatch_none_pipe {l : String} {r : List Char}
    (e : skipSp l.data = '|' :: r) : planItemMatch l = none := by
  unfold planItemMatch
  rw [e]
  simp

/-- A line whose first non-blank character is a pipe is no loose task line. -/
theorem taskMatch_none_pipe {l : String} {r : List Char}
    (e : skipSp l.data = '|' :: r) : taskMatch l = none := by
  unfold taskMatch
  rw [e]
  simp

/-- A matched plan table row starts (after blanks) with a pipe. -/
theorem planTableMatch_shape {l : String} {x : String × String}
    (h : planTableMatch l = some x) : ∃ r, skipSp l.data = '|' :: r := by
  unfold planTableMatch at h
  rcases e : skipSp l.data with _ | ⟨c, r⟩ <;> rw [e] at h
  · simp at h
  · by_cases hc : c == '|'
    · have hcp : c = '|' := by simpa using hc
      subst hcp
      exact ⟨r, rfl⟩
    · simp [hc] at h

/-- A matched strict task line starts (after blanks) with a bullet. -/
theorem planItemMatch_shape {l : String} {x : Char × String × String}
    (h : planItemMatch l = some x) :
    ∃ b r, skipSp l.data = b :: r ∧ (b = '-' ∨ b = '*') := by
  unfold planItemMatch at h
  rcases e : skipSp l.data with _ | ⟨b, r⟩ <;> rw [e] at h
  · simp at h
  · by_cases hb : b == '-' || b == '*'
    · refine ⟨b, r, rfl, ?_⟩
      rcases Bool.or_eq_true_iff.mp hb with h1 | h1
      · exact Or.inl (by simpa using h1)
      · exact Or.inr (by simpa using h1)
    · simp [hb] at h

/-- A matched loose task line starts (after blanks) with a bullet. -/
theorem taskMatch_shape {l : String} {x : Char × String}
    (h : taskMatch l = some x) :
    ∃ b r, skipSp l.data = b :: r ∧ (b = '-' ∨ b = '*') := by
  unfold taskMatch at h
  rcases e : skipSp l.data with _ | ⟨b, r⟩ <;> rw [e] at h
  · simp at h
  · by_cases hb : b == '-' || b == '*'
    · refine ⟨b, r, rfl, ?_⟩
      rcases Bool.or_eq_true_iff.mp hb with h1 | h1
      · exact Or.inl (by simpa using h1)
      · exact Or.inr (by simpa using h1)
    · simp [hb] at h

/-- Bullet-started lines are no header lines. -/
theorem headerMatch_none_of_bullet {l : String} {b : Char} {r : List Char}
    (e : skipSp l.data = b :: r) (hb : b = '-' ∨ b = '*') : headerMatch l = none := by
  rcases hb with hb | hb <;> subst hb <;> exact headerMatch_none e (by decide)

/-- Revoking over an empty section list is the identity. -/
theorem revokeSecs_nil (d : SDict PlanItem) : revokeSecs d [] = d := rfl

/-- Unfolding of a two-line plan parse. -/
theorem parsePlanLines_pair (l1 l2 : String) :
    parsePlanLines [l1, l2] =
      (planStep [l1, l2] (planStep [l1, l2] ([], []) 1 l1) 2 l2).1 := rfl

end Lemmas

section Claims

/-- C1, counterexample: a test body whose single (docstring-free) statement
is `assert 1 == 1` yields the trivial-comparison issue but NOT the
no-assertions issue — the tautological `assert` is itself an `ast.Assert`
node, so `AssertionFinder` reports assertion evidence.  The claim, which
demands both flags, is therefore false at this input. -/
theorem c1_counterexample :
    check_test_integrity [trivialAssert] = ["Always-pass pattern: trivial comparison"] ∧
    "No assertions found (placeholder test)" ∉ check_test_integrity [trivialAssert] := by
  constructor
  · rfl
  · decide

/-- C1, amended: for every test function whose documentation-stripped body
consists of the single statement `assert 1 == 1`, the issue list is exactly
`["Always-pass pattern: trivial comparison"]`; the no-assertions flag is not
raised because the assert statement itself counts as assertion evidence. -/
theorem c1_amended :
    check_test_integrity [trivialAssert] = ["Always-pass pattern: trivial comparison"] ∧
    (∀ s : String,
      check_test_integrity [PStmt.exprS (.constant (.pstr s)), trivialAssert] =
        ["Always-pass pattern: trivial comparison"]) :=
  ⟨rfl, fun _ => rfl⟩

/-- C2: the exit status is 0 iff the sum of the four exit-relevant issue
counts (`prd_not_in_plan`, `plan_not_in_prd`, `suspect_tests`,
`completion_issues`) is zero; the displayed total additionally counts
`no_test_coverage`; and on a concrete pipeline input where only
`no_test_coverage` is non-empty the exit status is 0 while the displayed
total-issues count is positive (and the report prints it). -/
theorem c2_exit_status_asymmetry :
    (∀ r : AuditResult, exitStatus r = 0 ↔ exitRelevantSum r = 0) ∧
    (∀ r : AuditResult, totalIssues r = exitRelevantSum r + r.no_test_coverage.length) ∧
    (exitStatus c2input = 0 ∧ 0 < totalIssues c2input ∧
      "**Total issues found: 1**" ∈ generate_report_lines c2input "proj" "/proj") := by
  refine ⟨fun r => ?_, fun r => ?_, ?_, ?_, ?_⟩
  · unfold exitStatus
    split <;> omega
  · unfold totalIssues exitRelevantSum
    omega
  · decide
  · decide
  · decide

/-- C3, counterexample: the claim quantifies over all requirement ids, but
`no_test_coverage` only ever contains keys of the requirements mapping.
With an empty requirements mapping and no tests, no TestInfo declares
`FR-1`, yet `no_test_coverage` does not contain it. -/
theorem c3_counterexample :
    ¬ (("FR-1" ∈ (run_audit [] [] []).no_test_coverage) ↔
        ∀ t ∈ (run_audit [] [] []).tests, declaresReq t "FR-1" = false) := by
  decide

/-- C3, amended: for all requirement ids R, `no_test_coverage` contains R iff
R is a key of the requirements mapping AND no TestInfo declares R among its
requirement ids. -/
theorem c3_amended (reqs : SDict Requirement) (plans : SDict PlanItem)
    (tests : List TestInfo) (R : String) :
    R ∈ (run_audit reqs plans tests).no_test_coverage ↔
      (R ∈ dkeys reqs ∧ ∀ t ∈ tests, declaresReq t R = false) := by
  show R ∈ (dkeys reqs).filter (fun r => !(testedHas tests r)) ↔ _
  rw [List.mem_filter]
  simp [testedHas]

/-- C6: a test function whose body, after an optional leading docstring,
is exactly one `pass` statement gets exactly the one-element issue list
`["Placeholder test (only pass statement)"]` — the early return skips every
further check (otherwise the no-assertions issue would also accrue). -/
theorem c6_placeholder_only_pass :
    check_test_integrity [PStmt.passS] = ["Placeholder test (only pass statement)"] ∧
    (∀ s : String,
      check_test_integrity [PStmt.exprS (.constant (.pstr s)), PStmt.passS] =
        ["Placeholder test (only pass statement)"]) :=
  ⟨rfl, fun _ => rfl⟩

/-- C8: a test source file whose text fails to parse (modelled by a `none`
parse result) contributes an empty TestInfo list and no error, and the
test-collection loop over the remaining files is unaffected. -/
theorem c8_parse_failure_tolerated :
    (∀ path : String, analyze_test_file none path = []) ∧
    (∀ (pre post : List (String × Option (List PStmt))) (path : String),
      runTests (pre ++ (path, none) :: post) = runTests pre ++ runTests post) := by
  refine ⟨fun _ => rfl, fun pre post path => ?_⟩
  unfold runTests
  simp [analyze_test_file]

/-- Lookup in a PRD parse fold resolves to the last defining line seen so
far, and otherwise to the starting dict. -/
theorem parsePrdAux_dget (lines : List String) (i : Nat) (d : SDict Requirement)
    (rid : String) :
    dget (parsePrdAux i lines d) rid =
      (match lastPrdDef i lines rid with
       | some (t, n) => some ⟨rid, t, n⟩
       | none => dget d rid) := by
  induction lines generalizing i d with
  | nil => rfl
  | cons l rest ih =>
    show dget (parsePrdAux (i + 1) rest _) rid = _
    rw [ih]
    rcases hrest : lastPrdDef (i + 1) rest rid with _ | ⟨t, n⟩
    · rcases hc : prdClassify l with _ | ⟨k, t'⟩
      · simp [lastPrdDef, hrest, hc]
      · by_cases hk : k == rid
        · have hke : k = rid := by simpa using hk
          subst hke
          simp [lastPrdDef, hrest, hc, hk, dget_dinsert_self]
        · have hne : rid ≠ k := fun he => hk (by simp [he])
          simp [lastPrdDef, hrest, hc, hk, dget_dinsert_ne _ _ _ _ hne]
    · simp [lastPrdDef, hrest]

/-- C9: when a requirements document defines the same id on more than one
line (any combination of the list, table and heading forms), the extracted
mapping holds for that id exactly the stripped text and line number of the
last defining occurrence. -/
theorem c9_last_wins (lines : List String) (rid t : String) (n : Nat)
    (_hmulti : 2 ≤ prdDefCount lines rid)
    (hlast : lastPrdDef 1 lines rid = some (t, n)) :
    dget (parsePrdLines lines) rid = some ⟨rid, t, n⟩ := by
  unfold parsePrdLines
  rw [parsePrdAux_dget, hlast]

/-- C9 witness: a document defining FR-1 three times, via the list, table
and heading forms in that order, maps FR-1 to the heading form's text and
line. -/
theorem c9_witness :
    dget (parsePrdLines ["- **FR-1**: first", "| FR-1 | second |", "### FR-1: third"])
      "FR-1" = some ⟨"FR-1", "third", 3⟩ :=
  c9_last_wins ["- **FR-1**: first", "| FR-1 | second |", "### FR-1: third"]
    "FR-1" "third" 3 (by decide) (by decide)

/-- C10: a loose checkbox task line whose status is not `x`/`X` marks every
id of `current_section_reqs` that already has a PlanItem as not completed,
even when the line itself references zero requirement ids. -/
theorem c10_loose_revocation (lines : List String) (d : SDict PlanItem)
    (secs : List String) (i : Nat) (line : String) (stc : Char) (txt rid : String)
    (item : PlanItem)
    (hh : headerMatch line = none)
    (hs : planItemMatch line = none)
    (ht : taskMatch line = some (stc, txt))
    (hx : stc.toLower ≠ 'x')
    (hids : findallReqIds (pyStrip txt) = [])
    (hget : dget d rid = some item)
    (hmem : rid ∈ secs) :
    dget ((planStep lines (d, secs) i line).1) rid = some (setIncomplete item) := by
  have hxf : (stc.toLower == 'x') = false := beq_eq_false_iff_ne.mpr hx
  simp only [planStep, hh, hs, ht, hids, hxf, Bool.false_eq_true, if_false,
    List.foldl_nil]
  rw [dget_revokeSecs _ _ _ _ hget, if_pos hmem]

/-- C10 witness: a bare incomplete loose task mentioning no id revokes the
completion of FR-1 of the current section. -/
theorem c10_witness :
    dget ((planStep [] ([("FR-1", ⟨"FR-1", "sec", true, 1, []⟩)], ["FR-1"]) 2
        "- [ ] nothing here").1) "FR-1" =
      some (setIncomplete ⟨"FR-1", "sec", true, 1, []⟩) :=
  c10_loose_revocation [] [("FR-1", ⟨"FR-1", "sec", true, 1, []⟩)] ["FR-1"] 2
    "- [ ] nothing here" ' ' "nothing here" "FR-1" ⟨"FR-1", "sec", true, 1, []⟩
    (by decide) (by decide) (by decide) (by decide) (by decide) (by decide)
    (List.mem_singleton.mpr rfl)

/-- C5: in a two-line plan document whose first line is a heading embedding
requirement id `r` and whose second is an incomplete loose task line
referencing `r`, the final PlanItem for `r` has `completed = false` — the
later incomplete sub-task revokes (and here overwrites) the heading's
optimistic `completed = true`. -/
theorem c5_section_revocation (l1 l2 g : String) (stc : Char) (txt r : String)
    (h1 : headerMatch l1 = some g)
    (h2 : r ∈ findallReqIds (pyStrip g))
    (h3 : planItemMatch l2 = none)
    (h4 : taskMatch l2 = some (stc, txt))
    (h5 : stc.toLower ≠ 'x')
    (h6 : r ∈ findallReqIds (pyStrip txt)) :
    (dget (parsePlanLines [l1, l2]) r).map PlanItem.completed = some false := by
  have hemp : (findallReqIds (pyStrip g)).isEmpty = false := by
    rcases he : findallReqIds (pyStrip g) with _ | ⟨a, as⟩
    · rw [he] at h2; cases h2
    · rfl
  have hh2 : headerMatch l2 = none := by
    obtain ⟨b, rr, e, hb⟩ := taskMatch_shape h4
    exact headerMatch_none_of_bullet e hb
  have hxf : (stc.toLower == 'x') = false := beq_eq_false_iff_ne.mpr h5
  rw [parsePlanLines_pair]
  simp only [planStep, h1, hemp, Bool.false_eq_true, if_false, hh2, h3, h4, hxf]
  rw [dget_foldl_dinsert_mem _ _ _ _ _ _ _ h6]
  rfl

/-- C5 witness: `### Section (FR-2)` followed by `- [ ] sub-step (FR-2)`
leaves FR-2 not completed. -/
theorem c5_witness :
    (dget (parsePlanLines ["### Section (FR-2)", "- [ ] sub-step (FR-2)"]) "FR-2").map
      PlanItem.completed = some false :=
  c5_section_revocation "### Section (FR-2)" "- [ ] sub-step (FR-2)"
    "Section (FR-2)" ' ' "sub-step (FR-2)" "FR-2"
    (by decide) (by decide) (by decide) (by decide) (by decide) (by decide)

/-- C4, counterexample: a plan document CONTAINING a Pending table row and a
strict `[x]` task line for FR-1 need not end up with the strict line's item —
here a later incomplete loose task referencing FR-1 overwrites it, so the
final PlanItem has `completed = false`, contradicting the claim at this
document. -/
theorem c4_counterexample :
    planTableMatch "| FR-1 | Pending |" = some ("FR-1", "pending") ∧
    planItemMatch "- [x] **FR-1**: do it" = some ('x', "FR-1", "do it") ∧
    splitLines c4doc =
      ["| FR-1 | Pending |", "- [x] **FR-1**: do it", "- [ ] extra (FR-1)"] ∧
    (dget (parse_plan c4doc) "FR-1").map PlanItem.completed = some false := by
  refine ⟨by decide, by decide, by decide, by decide⟩

/-- C4, amended: in a plan document consisting of a Pending table row and a
strict `[x]` task line for the same id — the only lines mentioning the id —
the final PlanItem carries the strict line's text and `completed = true`, in
either relative order: the table row only fills gaps while the strict task
line overwrites unconditionally.  (The orderings still differ in the
recorded line number and test-reference window, so the full records are not
identical.) -/
theorem c4_amended (t s rid txt : String) (stc : Char)
    (ht : planTableMatch t = some (rid, "pending"))
    (hs : planItemMatch s = some (stc, rid, txt))
    (hx : stc.toLower = 'x') :
    (dget (parsePlanLines [t, s]) rid).map (fun p => (p.text, p.completed)) =
      some (pyStrip txt, true) ∧
    (dget (parsePlanLines [s, t]) rid).map (fun p => (p.text, p.completed)) =
      some (pyStrip txt, true) := by
  obtain ⟨rt, et⟩ := planTableMatch_shape ht
  have hth : headerMatch t = none := headerMatch_none et (by decide)
  have hts : planItemMatch t = none := planItemMatch_none_pipe et
  have htt : taskMatch t = none := taskMatch_none_pipe et
  obtain ⟨b, rs, es, hb⟩ := planItemMatch_shape hs
  have hsh : headerMatch s = none := headerMatch_none_of_bullet es hb
  have hxt : (stc.toLower == 'x') = true := by simp [hx]
  constructor
  · rw [parsePlanLines_pair]
    simp only [planStep, hth, hts, htt, ht, hsh, hs, hxt, if_true, revokeSecs_nil,
      show dmem ([] : SDict PlanItem) rid = false from rfl, Bool.false_eq_true, if_false]
    rw [dget_dinsert_self]
    simp
  · rw [parsePlanLines_pair]
    simp only [planStep, hsh, hs, hth, hts, htt, ht, hxt, if_true, revokeSecs_nil,
      dmem_dinsert_self]
    rw [dget_dinsert_self]
    simp

/-- C4 witness: the two-line documents in both orders resolve FR-1 to the
strict task line's text with `completed = true`. -/
theorem c4_witness :
    (dget (parsePlanLines ["| FR-1 | Pending |", "- [x] **FR-1**: do it"]) "FR-1").map
        (fun p => (p.text, p.completed)) = some (pyStrip "do it", true) ∧
    (dget (parsePlanLines ["- [x] **FR-1**: do it", "| FR-1 | Pending |"]) "FR-1").map
        (fun p => (p.text, p.completed)) = some (pyStrip "do it", true) :=
  c4_amended "| FR-1 | Pending |" "- [x] **FR-1**: do it" "FR-1" "do it" 'x'
    (by decide) (by decide) (by decide)

/-- C7, counterexample: the report is NOT a function of the input documents
and the set of test files alone — two enumeration orders of the same two
analyzed files (a permutation, as `find_test_files`' `list(set(...))` does
not fix an order) produce different report bytes, because the suspect-tests
section follows discovery order. -/
theorem c7_counterexample :
    [c7fileA, c7fileB].Perm [c7fileB, c7fileA] ∧
    audit_report "" "" [c7fileA, c7fileB] "proj" "/proj" ≠
      audit_report "" "" [c7fileB, c7fileA] "proj" "/proj" := by
  refine ⟨List.Perm.swap _ _ _, by decide⟩

/-- C7, amended: running the pipeline twice with the same test-file
enumeration order yields identical reports (the embedded pipeline is a pure
function), and even across different enumeration orders of the same file set
the exit status and the displayed total-issues count coincide; only the
report's suspect-tests section order can differ. -/
theorem c7_amended (prd plan : String)
    (files files' : List (String × Option (List PStmt))) (h : files.Perm files') :
    exitStatus (audit_pipeline prd plan files) =
      exitStatus (audit_pipeline prd plan files') ∧
    totalIssues (audit_pipeline prd plan files) =
      totalIssues (audit_pipeline prd plan files') := by
  have hp : (runTests files).Perm (runTests files') := h.flatMap_right _
  have hth : ∀ r, testedHas (runTests files) r = testedHas (runTests files') r := by
    intro r
    apply Bool.eq_iff_iff.mpr
    simp only [testedHas, List.any_eq_true]
    exact ⟨fun ⟨t, ht, hd⟩ => ⟨t, hp.mem_iff.mp ht, hd⟩,
      fun ⟨t, ht, hd⟩ => ⟨t, hp.mem_iff.mpr ht, hd⟩⟩
  have hfn : (fun r => !(testedHas (runTests files) r)) =
      (fun r => !(testedHas (runTests files') r)) :=
    funext fun r => by rw [hth]
  have hgn : (fun (p : String × PlanItem) =>
      if p.2.completed && !(testedHas (runTests files) p.1) && dmem (parse_prd prd) p.1
      then some (p.1, "Marked complete but no tests found") else none) =
      (fun (p : String × PlanItem) =>
      if p.2.completed && !(testedHas (runTests files') p.1) && dmem (parse_prd prd) p.1
      then some (p.1, "Marked complete but no tests found") else none) :=
    funext fun p => by rw [hth]
  have hsus : ((runTests files).filter (fun t => !t.issues.isEmpty)).length =
      ((runTests files').filter (fun t => !t.issues.isEmpty)).length :=
    (hp.filter _).length_eq
  unfold audit_pipeline run_audit exitStatus exitRelevantSum totalIssues
  simp only
  rw [hfn, hgn, hsus]
  exact ⟨rfl, rfl⟩

/-- C7 witness: swapping the two placeholder test files leaves the exit
status and the displayed total unchanged. -/
theorem c7_witness :
    exitStatus (audit_pipeline "" "" [c7fileA, c7fileB]) =
      exitStatus (audit_pipeline "" "" [c7fileB, c7fileA]) ∧
    totalIssues (audit_pipeline "" "" [c7fileA, c7fileB]) =
      totalIssues (audit_pipeline "" "" [c7fileB, c7fileA]) :=
  c7_amended "" "" [c7fileA, c7fileB] [c7fileB, c7fileA] (List.Perm.swap _ _ _)

end Claims

end Audit
